import Mathlib

/-!
Shallow embedding of `caputils.py` (a small library over packet-capture
files) and proofs about it.

Modelling conventions:
* Python exceptions are values of `Caputils.PyErr`; fallible code returns
  `Except PyErr α`.
* Python floats are modelled as exact rationals `ℚ`.
* The external `capinfos` process is a parameter
  `runTool : List String → List String → Except ToolFailure String`
  mapping (options, paths) to the tool's stdout, a non-zero-exit failure
  carrying stderr, or a "executable not found" failure.
* File paths are `String`s.
-/

set_option linter.unusedVariables false

namespace Caputils

/-- Equality of `Except` values is decidable when it is on both sides. -/
instance instDecEqExcept {ε α : Type} [DecidableEq ε] [DecidableEq α] :
    DecidableEq (Except ε α)
  | .ok a, .ok b =>
    if h : a = b then .isTrue (congrArg Except.ok h)
    else .isFalse (fun hh => h (Except.ok.inj hh))
  | .error a, .error b =>
    if h : a = b then .isTrue (congrArg Except.error h)
    else .isFalse (fun hh => h (Except.error.inj hh))
  | .ok _, .error _ => .isFalse (fun hh => Except.noConfusion hh)
  | .error _, .ok _ => .isFalse (fun hh => Except.noConfusion hh)

/-- The Python exceptions that appear in `caputils.py`.  `runtimeError` and
`assertionError` are what the spec calls `InvalidArguments` / `MalformedOutput`
(the code raises `RuntimeError` and `AssertionError`); `valueError` is the
"not this format" signal of the dpkt parsers and also `float`/`int` parse
failures; `fileNotFoundError` is raised by `subprocess` when the executable
is absent; `calledProcessError` is a non-zero exit of `subprocess.check_call`;
`runtimeErrorGenDidntStop` is contextlib's "generator didn't stop after
throw()"; `otherError` covers any remaining exception class. -/
inductive PyErr : Type
  | runtimeError (msg : String)
  | assertionError (msg : String)
  | valueError (msg : String)
  | fileNotFoundError
  | calledProcessError (msg : String)
  | runtimeErrorGenDidntStop
  | otherError (msg : String)
  deriving DecidableEq, Repr

/-- Outcome of trying to run the external `capinfos` process:
stdout on success, stderr on non-zero exit (`subprocess.CalledProcessError`),
or the executable being absent from PATH (`FileNotFoundError`). -/
inductive ToolFailure : Type
  | calledProcess (stderr : String)
  | notFound
  deriving DecidableEq, Repr

/-- The argument `path : str | Path | list[str] | list[Path]` of `capinfos`. -/
inductive PathArg : Type
  | single (p : String)
  | multiple (ps : List String)
  deriving DecidableEq, Repr

/-- A parsed capinfos record: Python builds `{k: v for k, v in zip(keys, values)}`.
We keep the zipped association list; `dictGet` below reproduces dict lookup
(last occurrence of a duplicated key wins, as in a dict comprehension). -/
abbrev InfoDict := List (String × String)

/-- `capinfos` returns `dict[str, str] | list[dict[str, str]]`:
a bare record, or a list of records. -/
inductive CapinfosResult : Type
  | single (d : InfoDict)
  | multiple (ds : List InfoDict)
  deriving DecidableEq, Repr

/-- Python `dict` lookup on the association list built by zipping:
in `{k: v for k, v in zip(keys, values)}` a later duplicate key overwrites an
earlier one, hence the `reverse`.  `none` models a `KeyError`. -/
def dictGet (d : InfoDict) (k : String) : Option String :=
  (d.reverse.find? (fun kv => kv.1 = k)).map (fun kv => kv.2)

/-- Split a character list at every occurrence of `sep` (Python
`str.split(sep)` with an explicit one-character separator: no run merging,
empty pieces preserved). -/
def splitOnChar (sep : Char) (cs : List Char) : List (List Char) :=
  cs.foldr
    (fun c r =>
      if c = sep then [] :: r
      else
        match r with
        | [] => [[c]]
        | h :: t => (c :: h) :: t)
    [[]]

/-- Python `line.split("\t")`. -/
def splitTab (s : String) : List String :=
  (splitOnChar '\t' s.data).map String.mk

/-- Python `str.splitlines()` restricted to `"\n"`-separated text (the only
line boundary occurring in the strings this code handles): split on `'\n'`
and drop the trailing empty piece produced by a terminating newline. -/
def splitlines (s : String) : List String :=
  let parts := (splitOnChar '\n' s.data).map String.mk
  if parts.getLast? = some "" then parts.dropLast else parts

/-- Python `opt.startswith("-")`. -/
def startsWithDash (s : String) : Bool :=
  match s.data with
  | [] => false
  | c :: _ => c = '-'

/-- Numeric value of a digit string, most significant digit first. -/
def digitsVal (ds : List Char) : Nat :=
  ds.foldl (fun a c => a * 10 + (c.toNat - 48)) 0

/-- Python `int(s)` on the strings this code meets: optional sign followed by
decimal digits; `none` models the `ValueError` of a failed parse. -/
def pyIntStr (s : String) : Option Int :=
  match s.data with
  | [] => none
  | c :: rest =>
    if c = '-' then
      if rest ≠ [] ∧ rest.all Char.isDigit then some (-(digitsVal rest : Int)) else none
    else
      if (c :: rest).all Char.isDigit then some (digitsVal (c :: rest) : Int) else none

/-- Python `float(s)` on plain decimal literals (the shape produced by the
`capinfos` tool): digits with at most one decimal point, at least one digit
overall.  The result is the exact rational value; `none` models the
`ValueError` of a failed parse. -/
def pyFloatChars (cs : List Char) : Option ℚ :=
  let intPart := cs.takeWhile (fun c => c ≠ '.')
  match cs.dropWhile (fun c => c ≠ '.') with
  | [] =>
    if intPart ≠ [] ∧ intPart.all Char.isDigit then some ((digitsVal intPart : ℚ)) else none
  | _ :: frac =>
    if frac.any (fun c => c = '.') then none
    else if intPart = [] ∧ frac = [] then none
    else if intPart.all Char.isDigit ∧ frac.all Char.isDigit then
      some ((digitsVal intPart : ℚ) + (digitsVal frac : ℚ) / (10 : ℚ) ^ frac.length)
    else none

/-- Python `float(s)` with an optional leading sign. -/
def pyFloat (s : String) : Option ℚ :=
  match s.data with
  | c :: rest =>
    if c = '-' then (pyFloatChars rest).map (fun q => -q)
    else if c = '+' then pyFloatChars rest
    else pyFloatChars (c :: rest)
  | [] => none

/-- `val.replace(",", ".")`: single-character replace is a character map. -/
def replaceCommaDot (s : String) : String :=
  String.mk (s.data.map (fun c => if c = ',' then '.' else c))

/--
`capinfos(path, *opts)` from `caputils.py`, with the external process as the
parameter `runTool`:

* a list argument must be non-empty (`RuntimeError` otherwise), a bare path
  becomes a one-element list;
* every option must start with `"-"` (`RuntimeError` otherwise) — both checks
  happen before `runTool` is consulted;
* `"-T"` and `"-M"` are appended unless already present;
* a `CalledProcessError` is re-raised as `RuntimeError` carrying stderr, a
  missing executable propagates as `FileNotFoundError`;
* the output must be non-empty, have at least two lines and contain a tab
  (`RuntimeError` otherwise);
* each data line is zipped with the header line into a record; a single
  record is returned bare, several as a list.
-/
def capinfos (path : PathArg) (opts : List String)
    (runTool : List String → List String → Except ToolFailure String) :
    Except PyErr CapinfosResult := do
  let paths ← match path with
    | .multiple l =>
      if l = [] then throw (.runtimeError "No paths provided") else pure l
    | .single p => pure [p]
  if ¬ (opts.all startsWithDash) then
    throw (.runtimeError "All opts must start with a dash")
  let opts1 := if opts.contains "-T" then opts else opts ++ ["-T"]
  let opts2 := if opts1.contains "-M" then opts1 else opts1 ++ ["-M"]
  let out ← match runTool opts2 paths with
    | .ok o => pure o
    | .error (.calledProcess stderr) => throw (.runtimeError stderr)
    | .error .notFound => throw .fileNotFoundError
  if out = "" ∨ (splitlines out).length < 2 ∨ ¬ (out.data.any (fun c => c = '\t')) then
    throw (.runtimeError ("Unexpected output format of capinfos command:\n" ++ out))
  match splitlines out with
  | [] => throw (.otherError "IndexError")
  | keyLine :: rest =>
    let keys := splitTab keyLine
    let infos := rest.map (fun line => List.zip keys (splitTab line))
    if infos.length > 1 then
      pure (.multiple infos)
    else
      match infos with
      | [i] => pure (.single i)
      | _ => throw (.otherError "IndexError")

/-- `sum(1 for _ in reader)`: a streaming count that folds over the record
sequence accumulating only the counter, retaining no record. -/
def streamRecordCount (records : List (ℚ × List Nat)) : Nat :=
  records.foldl (fun n _ => n + 1) 0

/--
`count(path)` from `caputils.py`.  `whichCapinfos` is
`shutil.which("capinfos") is not None`; `readerRecords` is the record
sequence the Capture Reader yields for `path`.  When the tool is absent the
function warns and returns the streaming count; otherwise it asks
`capinfos(path, "-c")` and parses the `"Number of packets"` field with
`int`.
-/
def count (whichCapinfos : Bool) (readerRecords : List (ℚ × List Nat))
    (path : String)
    (runTool : List String → List String → Except ToolFailure String) :
    Except PyErr Int := do
  if ¬ whichCapinfos then
    pure (streamRecordCount readerRecords : Int)
  else do
    let ci ← capinfos (.single path) ["-c"] runTool
    match ci with
    | .single d =>
      match dictGet d "Number of packets" with
      | some v =>
        match pyIntStr v with
        | some n => pure n
        | none => throw (.valueError ("invalid literal for int: " ++ v))
      | none => throw (.otherError "KeyError")
    | .multiple _ => throw (.otherError "TypeError")

/-- The local `parse` helper of `get_start_end`:
`float(val.replace(",", "."))`. -/
def parseLocaleFloat (val : String) : Except PyErr ℚ :=
  match pyFloat (replaceCommaDot val) with
  | some q => pure q
  | none => throw (.valueError ("could not convert string to float: " ++ val))

/--
`get_start_end(pcap)` from `caputils.py`: calls `capinfos(pcap, "-aeS")`
(so the tool is consulted unconditionally — there is no availability check
and no fallback), looks up `"Start time"` and `"End time"` and parses each
with the locale-tolerant `parse`.
-/
def get_start_end (pcap : String)
    (runTool : List String → List String → Except ToolFailure String) :
    Except PyErr (ℚ × ℚ) := do
  let ci ← capinfos (.single pcap) ["-aeS"] runTool
  match ci with
  | .single d => do
    let sVal ← match dictGet d "Start time" with
      | some v => pure v
      | none => throw (.otherError "KeyError")
    let startSeconds ← parseLocaleFloat sVal
    let eVal ← match dictGet d "End time" with
      | some v => pure v
      | none => throw (.otherError "KeyError")
    let endSeconds ← parseLocaleFloat eVal
    pure (startSeconds, endSeconds)
  | .multiple _ => throw (.otherError "TypeError")

/-- The invocation `editcap -t <seconds> -F <filetype> <infile> <outfile>`
that `shift_time` hands to `subprocess.check_call` once validation and the
offset computation have succeeded. -/
structure EditcapCall : Type where
  offsetSeconds : ℚ
  filetype : String
  infile : String
  outfile : String
  deriving DecidableEq, Repr

/--
`shift_time(infile, outfile, seconds, *, reference, position, filetype)` from
`caputils.py`, up to the point where the external `editcap` process is
invoked (the invocation it would make is the returned value).

The Python signature defaults are `seconds=None`, `reference=None`,
`position=0.0` (note: `0.0`, not `None`), `filetype="pcap"`; a caller that
omits an argument passes the default here, so `position = some 0` models an
omitted `position`.  The body:

* if `seconds` is given, asserts `reference is None and position is None`;
* otherwise asserts `reference is not None and position is not None`, then
  `0 <= position <= 1`, queries `get_start_end` on `infile` and on
  `reference`, and computes
  `seconds = start + (end - start) * position - origin`.
-/
def shift_time (infile outfile : String) (seconds : Option ℚ)
    (reference : Option String) (position : Option ℚ) (filetype : String)
    (runTool : List String → List String → Except ToolFailure String) :
    Except PyErr EditcapCall := do
  let secs ← match seconds with
    | some s =>
      if reference = none ∧ position = none then
        pure s
      else
        throw (.assertionError "Seconds cannot be specified along with reference and position")
    | none =>
      match reference, position with
      | some ref, some pos =>
        if 0 ≤ pos ∧ pos ≤ 1 then do
          let origin ← get_start_end infile runTool
          let se ← get_start_end ref runTool
          pure (se.1 + (se.2 - se.1) * pos - origin.1)
        else
          throw (.assertionError "Position must be between 0 and 1")
      | _, _ =>
        throw (.assertionError "Reference and position cannot be specified along with seconds")
  pure ⟨secs, filetype, infile, outfile⟩

/-- A call `shift_time(infile, outfile, s)` that supplies only the explicit
offset and leaves every keyword argument at its Python default
(`reference=None`, `position=0.0`, `filetype="pcap"`). -/
def shiftTimeSecondsOnly (infile outfile : String) (s : ℚ)
    (runTool : List String → List String → Except ToolFailure String) :
    Except PyErr EditcapCall :=
  shift_time infile outfile (some s) none (some 0) "pcap" runTool

/-- The state of a `tempfile.NamedTemporaryFile` wrapper (CPython semantics):
`close()` unlinks the file exactly once — a second `close()`, including the
one performed by the context manager's `__exit__`, is a no-op because
`close_called` is already set. -/
structure TmpFile : Type where
  name : String
  closeCalled : Bool
  delete : Bool
  deriving DecidableEq, Repr

/-- `tmp.close()` on a `NamedTemporaryFile` (modelled from CPython's
`tempfile._TemporaryFileCloser.close`): on the first call, close and — when
`delete` is set — unlink `name` from the filesystem; later calls do
nothing. -/
def tmpClose (fs : List String) (t : TmpFile) : List String × TmpFile :=
  if t.closeCalled then (fs, t)
  else ((if t.delete then fs.erase t.name else fs), { t with closeCalled := true })

/--
`merge_time_aligned(left, right, outfile, filetype)` from `caputils.py`,
tracked at the filesystem level.  `fs0` is the set of paths present before
the call (as a list); `tmpName` is the fresh name `NamedTemporaryFile`
chooses; `editcapOk` / `mergecapOk` say whether the two external
`check_call`s exit zero.  Returns the filesystem after the call together
with its outcome.

The body, faithfully:
1. `with NamedTemporaryFile() as tmp` — creates the (empty) file `tmpName`;
2. `tmp.close()` — closes and unlinks `tmpName` (first close);
3. `shift_time(right, tmp.name, reference=left)` — validation and offset
   computation via `get_start_end`, then `editcap` which, on success, writes
   the shifted copy at `tmpName`;
4. `mergecap([left, tmp.name], outfile, filetype=filetype)` — on success
   writes `outfile`;
5. leaving the `with` block calls `tmp.close()` again, a no-op (see
   `tmpClose`), on every path — normal or exceptional.
-/
def merge_time_aligned (fs0 : List String) (tmpName : String)
    (left right outfile filetype : String)
    (runTool : List String → List String → Except ToolFailure String)
    (editcapOk mergecapOk : Bool) : List String × Except PyErr Unit :=
  let fs1 := tmpName :: fs0
  let t0 : TmpFile := ⟨tmpName, false, true⟩
  let c1 := tmpClose fs1 t0
  match shift_time right tmpName none (some left) (some 0) "pcap" runTool with
  | .error e => ((tmpClose c1.1 c1.2).1, .error e)
  | .ok _ =>
    if editcapOk then
      let fs3 := tmpName :: c1.1
      if mergecapOk then
        ((tmpClose (outfile :: fs3) c1.2).1, .ok ())
      else
        ((tmpClose fs3 c1.2).1, .error (.calledProcessError "mergecap"))
    else
      ((tmpClose c1.1 c1.2).1, .error (.calledProcessError "editcap"))

/-- The two binary capture sub-formats: `formatA` is pcap
(`dpkt.pcap.Reader`), `formatB` is pcapng (`dpkt.pcapng.Reader`). -/
inductive CapFormat : Type
  | formatA
  | formatB
  deriving DecidableEq, Repr

/-- Observable result of one `with pcap_reader(path) as reader: body` run:
the final outcome delivered to the caller, which parser the body consumed
records from (`none` when detection failed before the body ran), and whether
a FormatB parse was attempted *after* the body had begun consuming records
(i.e. whether the format was re-detected mid-stream). -/
structure ReaderRun (α : Type) : Type where
  outcome : Except PyErr α
  selected : Option CapFormat
  reDetectedMidStream : Bool
  deriving Repr

/--
One run of `with pcap_reader(path) as reader: body`, with
`@contextlib.contextmanager` semantics made explicit.  `parseA` is the
result of `dpkt.pcap.Reader(fd)` on the byte stream, `parseB` the result of
`dpkt.pcapng.Reader(fd)` on the stream rewound to its start (`fd.seek(0,0)`
precedes it in the source), and `body` is the consumer's block given the
selected reader (identified by its format).

Because the generator's `try … except ValueError` encloses the `yield`, an
exception raised by `body` is thrown back into the generator at the yield
point.  The cases, following CPython's `contextlib`:

* `parseA` succeeds, `body` returns: normal exit.
* `parseA` succeeds, `body` raises `ValueError`: the `except` catches it,
  rewinds and parses FormatB; if that succeeds the generator yields a second
  time and `__exit__` raises `RuntimeError` ("generator didn't stop after
  throw()"); if it fails, that failure replaces the body's error.
* `parseA` succeeds, `body` raises anything else: the error propagates
  unchanged.
* `parseA` raises `ValueError` (the "not this format" signal, raised during
  `__enter__`): rewind and parse FormatB; on success the body runs with the
  FormatB reader and its outcome is delivered unchanged; on failure the
  FormatB rejection propagates to the caller and the body never runs.
* `parseA` raises anything else: it propagates unchanged, the body never
  runs.
-/
def pcapReaderRun {α : Type} (parseA parseB : Except PyErr Unit)
    (body : CapFormat → Except PyErr α) : ReaderRun α :=
  match parseA with
  | .ok _ =>
    match body .formatA with
    | .ok a => ⟨.ok a, some .formatA, false⟩
    | .error e =>
      match e with
      | .valueError _ =>
        match parseB with
        | .ok _ => ⟨.error .runtimeErrorGenDidntStop, some .formatA, true⟩
        | .error e2 => ⟨.error e2, some .formatA, true⟩
      | _ => ⟨.error e, some .formatA, false⟩
  | .error (.valueError _) =>
    match parseB with
    | .ok _ =>
      match body .formatB with
      | .ok a => ⟨.ok a, some .formatB, false⟩
      | .error e => ⟨.error e, some .formatB, false⟩
    | .error e2 => ⟨.error e2, none, false⟩
  | .error e => ⟨.error e, none, false⟩

/-- The value stored in `PcapIterable.count` and returned by `__len__`:
`None`, `False`, `True`, or an `int`.  (The constructor parameter is
`Optional[bool]`, but `__len__` overwrites the field with the `int` result
of `count`.) -/
inductive CountField : Type
  | pyNone
  | pyFalse
  | pyTrue
  | pyInt (n : Int)
  deriving DecidableEq, Repr

/-- The mutable state of a `PcapIterable` object. -/
structure PcapIterable : Type where
  path : String
  count : CountField
  deriving DecidableEq, Repr

/--
`PcapIterable.__len__` from `caputils.py`.  `countFn` models a successful
call to the module-level `count` for a path.  Returns the Python return
value, the object state after the call, and whether `count` was invoked:

* `self.count is False` → return `None`, state unchanged, no counting;
* `self.count is None`  → compute `count(self.path)`, store it in
  `self.count`, return it;
* anything else → return the stored value, state unchanged, no counting.
-/
def pcapIterableLen (self : PcapIterable) (countFn : String → Int) :
    CountField × PcapIterable × Bool :=
  match self.count with
  | .pyFalse => (.pyNone, self, false)
  | .pyNone =>
    let n := countFn self.path
    (.pyInt n, { self with count := .pyInt n }, true)
  | c => (c, self, false)

/-! ## Theorems -/

/-- In the `Except` monad, `pure` is `Except.ok`. -/
@[simp] theorem except_pure_eq_ok {ε α : Type} (a : α) :
    (pure a : Except ε α) = .ok a := rfl

/-- In the `Except` monad, `throw` short-circuits a `bind`. -/
@[simp] theorem except_throw_bind {ε α β : Type} (e : ε) (f : α → Except ε β) :
    (throw e : Except ε α) >>= f = .error e := rfl

/-- In the `Except` monad, an `error` short-circuits a `bind`. -/
@[simp] theorem except_error_bind {ε α β : Type} (e : ε) (f : α → Except ε β) :
    (Except.error e : Except ε α) >>= f = .error e := rfl

/-- In the `Except` monad, binding a `pure` applies the continuation. -/
@[simp] theorem except_pure_bind {ε α β : Type} (a : α) (f : α → Except ε β) :
    (pure a : Except ε α) >>= f = f a := rfl

/-- In the `Except` monad, binding an `ok` applies the continuation. -/
@[simp] theorem except_ok_bind {ε α β : Type} (a : α) (f : α → Except ε β) :
    (Except.ok a : Except ε α) >>= f = f a := rfl

/-- Mapping over an `Except` `error` leaves it unchanged. -/
@[simp] theorem except_map_error {ε α β : Type} (e : ε) (f : α → β) :
    f <$> (Except.error e : Except ε α) = .error e := rfl

/-- Mapping over an `Except` `ok` applies the function. -/
@[simp] theorem except_map_ok {ε α β : Type} (a : α) (f : α → β) :
    f <$> (Except.ok a : Except ε α) = .ok (f a) := rfl

/-- Folding a `+1` counter over a list yields its length: the streaming count
of `count`'s fallback equals the number of records the reader produces. -/
theorem foldl_count_eq_length {α : Type} (l : List α) (n : ℕ) :
    l.foldl (fun a _ => a + 1) n = n + l.length := by
  induction l generalizing n with
  | nil => simp
  | cons x xs ih => simp [ih, Nat.add_assoc, Nat.add_comm 1 xs.length]

/-- The streaming count equals the record-list length. -/
theorem streamRecordCount_eq_length (records : List (ℚ × List Nat)) :
    streamRecordCount records = records.length := by
  simp [streamRecordCount, foldl_count_eq_length]

/--
Claim C1.  The claim says a call of `shift_time` supplying only an explicit
offset passes validation and proceeds to the external tool.  On the code it
does not: `position` defaults to `0.0` rather than `None`, so the very first
assertion (`reference is None and position is None`) fails on every
seconds-only call, with the message "Seconds cannot be specified along with
reference and position" even though the caller specified neither.  The other
three branches of the claim do hold: both-offset-and-reference, neither, and
an out-of-range position are all rejected.
-/
theorem shift_time_seconds_only_call_rejected :
    shiftTimeSecondsOnly "capture.pcap" "shifted.pcap" 5 (fun _ _ => .error .notFound)
      = .error (.assertionError "Seconds cannot be specified along with reference and position")
    ∧ shift_time "capture.pcap" "shifted.pcap" (some 5) (some "ref.pcap") (some 0) "pcap"
        (fun _ _ => .error .notFound)
      = .error (.assertionError "Seconds cannot be specified along with reference and position")
    ∧ shift_time "capture.pcap" "shifted.pcap" none none (some 0) "pcap"
        (fun _ _ => .error .notFound)
      = .error (.assertionError "Reference and position cannot be specified along with seconds")
    ∧ shift_time "capture.pcap" "shifted.pcap" none (some "ref.pcap") (some 2) "pcap"
        (fun _ _ => .error .notFound)
      = .error (.assertionError "Position must be between 0 and 1") := by
  refine ⟨?_, ?_, ?_, ?_⟩ <;> with_unfolding_all decide

/--
Claim C2.  The claim says the temporary shifted copy is removed on every
path.  On the code it is not: `tmp.close()` inside the
`with NamedTemporaryFile()` block unlinks the (still empty) file and marks
the wrapper closed, so when `editcap` recreates a file at the same name, the
`with` block's exit — whose `close()` is now a no-op — never deletes it.  On
a successful run the shifted copy persists next to the caller-named output
file. -/
theorem merge_time_aligned_tmp_persists :
    merge_time_aligned ["left.pcap", "right.pcap"] "tmpshift" "left.pcap" "right.pcap"
        "out.pcap" "pcap"
        (fun _ _ => .ok "Number of packets\tStart time\tEnd time\n10\t0\t5\n") true true
      = (["out.pcap", "tmpshift", "left.pcap", "right.pcap"], .ok ())
    ∧ "tmpshift" ∈ (merge_time_aligned ["left.pcap", "right.pcap"] "tmpshift" "left.pcap"
        "right.pcap" "out.pcap" "pcap"
        (fun _ _ => .ok "Number of packets\tStart time\tEnd time\n10\t0\t5\n") true true).1 := by
  refine ⟨?_, ?_⟩ <;> with_unfolding_all decide

/--
Claim C5.  The claim says that once a parser is selected no event — in
particular no error raised by the consumer — causes the format to be
re-detected mid-stream.  On the code the `try … except ValueError` of
`pcap_reader` encloses the `yield`, so a `ValueError` raised by the consumer
while it processes records is thrown back into the generator, caught, and
answered by rewinding the stream and attaching the FormatB parser
mid-stream: the run below selects FormatA, the body fails with `ValueError`,
and the FormatB parse is attempted, ending in contextlib's
"generator didn't stop after throw()" `RuntimeError` (or, when the FormatB
parse itself fails, in that parse error replacing the consumer's). -/
theorem pcap_reader_redetects_on_body_valueError :
    pcapReaderRun (α := Unit) (.ok ()) (.ok ())
        (fun _ => .error (.valueError "consumer failure"))
      = ⟨.error .runtimeErrorGenDidntStop, some .formatA, true⟩
    ∧ pcapReaderRun (α := Unit) (.ok ()) (.error (.valueError "invalid pcapng header"))
        (fun _ => .error (.valueError "consumer failure"))
      = ⟨.error (.valueError "invalid pcapng header"), some .formatA, true⟩ := by
  exact ⟨rfl, rfl⟩

/--
Claim C9.  `PcapIterable.__len__`: with `count=False` it returns `None`
(state unchanged, nothing counted); with `count=None` the first call invokes
the module-level `count`, stores the result in `self.count` and returns it;
and once an integer is cached every further call returns exactly that cached
integer without invoking `count` again and without touching the state. -/
theorem pcap_iterable_len_spec :
    (∀ (p : String) (cf : String → Int),
        pcapIterableLen ⟨p, .pyFalse⟩ cf = (.pyNone, ⟨p, .pyFalse⟩, false))
    ∧ (∀ (p : String) (cf : String → Int),
        pcapIterableLen ⟨p, .pyNone⟩ cf = (.pyInt (cf p), ⟨p, .pyInt (cf p)⟩, true))
    ∧ (∀ (p : String) (n : Int) (cf : String → Int),
        pcapIterableLen ⟨p, .pyInt n⟩ cf = (.pyInt n, ⟨p, .pyInt n⟩, false)) :=
  ⟨fun _ _ => rfl, fun _ _ => rfl, fun _ _ _ => rfl⟩

/--
Claim C3.  In `(reference, position)` mode with `position ∈ [0, 1]`,
`shift_time` invokes the external shift tool with offset
`refStart + (refEnd - refStart) * position - origin`, where `origin` is the
start time of the file being shifted and `(refStart, refEnd)` are the
start/end times of the reference; at `position = 0` that offset is
`refStart - origin` (the shifted start lands on the reference's start) and
at `position = 1` it is `refEnd - origin` (it lands on the reference's
end). -/
theorem shift_time_reference_mode_offset
    (infile outfile ref filetype : String) (p origin originEnd refStart refEnd : ℚ)
    (rt : List String → List String → Except ToolFailure String)
    (h1 : get_start_end infile rt = .ok (origin, originEnd))
    (h2 : get_start_end ref rt = .ok (refStart, refEnd))
    (hp0 : 0 ≤ p) (hp1 : p ≤ 1) :
    shift_time infile outfile none (some ref) (some p) filetype rt
      = .ok ⟨refStart + (refEnd - refStart) * p - origin, filetype, infile, outfile⟩
    ∧ refStart + (refEnd - refStart) * (0 : ℚ) - origin = refStart - origin
    ∧ refStart + (refEnd - refStart) * (1 : ℚ) - origin = refEnd - origin := by
  refine ⟨?_, by ring, by ring⟩
  simp only [shift_time, hp0, hp1, and_self, if_true, h1, h2]
  rfl

/-- Witness for `shift_time_reference_mode_offset` at a concrete run: the
shifted file starts at 1, the reference spans [10, 20], `position = 1/2`,
so the computed offset is `10 + (20 - 10) * (1/2) - 1 = 14`. -/
theorem shift_time_reference_mode_offset_witness :
    shift_time "in.pcap" "out.pcap" none (some "ref.pcap") (some (1/2)) "pcap"
        (fun _ ps =>
          if ps = ["ref.pcap"] then
            .ok "Number of packets\tStart time\tEnd time\n5\t10\t20\n"
          else
            .ok "Number of packets\tStart time\tEnd time\n7\t1\t3\n")
      = .ok ⟨10 + (20 - 10) * (1/2 : ℚ) - 1, "pcap", "in.pcap", "out.pcap"⟩
    ∧ (10 : ℚ) + (20 - 10) * (0 : ℚ) - 1 = 10 - 1
    ∧ (10 : ℚ) + (20 - 10) * (1 : ℚ) - 1 = 20 - 1 := by
  exact shift_time_reference_mode_offset "in.pcap" "out.pcap" "ref.pcap" "pcap"
    (1/2) 1 3 10 20 _
    (by with_unfolding_all decide) (by with_unfolding_all decide)
    (by norm_num) (by norm_num)

/--
Claim C4.  Format detection in `pcap_reader`: when the FormatA parse fails
with the "not this format" `ValueError`, the stream is rewound and handed to
the FormatB parser — on success the body consumes FormatB records and its
outcome is delivered unchanged; when the FormatB parser also rejects the
stream, that rejection (the `UnrecognizedFormat` signal) propagates to the
caller with no third attempt and no parser selected; and a FormatA failure
that is not the "not this format" signal propagates unchanged without the
FormatB parser ever being consulted. -/
theorem pcap_reader_format_fallback {α : Type} :
    (∀ (m : String) (body : CapFormat → Except PyErr α),
        pcapReaderRun (.error (.valueError m)) (.ok ()) body
          = ⟨body .formatB, some .formatB, false⟩)
    ∧ (∀ (m : String) (e2 : PyErr) (body : CapFormat → Except PyErr α),
        pcapReaderRun (.error (.valueError m)) (.error e2) body
          = ⟨.error e2, none, false⟩)
    ∧ (∀ (e : PyErr) (parseB : Except PyErr Unit) (body : CapFormat → Except PyErr α),
        (∀ m, e ≠ .valueError m) →
        pcapReaderRun (.error e) parseB body = ⟨.error e, none, false⟩) := by
  refine ⟨?_, ?_, ?_⟩
  · intro m body
    cases h : body .formatB <;> simp [pcapReaderRun, h]
  · intro m e2 body
    rfl
  · intro e parseB body he
    cases e with
    | valueError m => exact absurd rfl (he m)
    | _ => rfl

/-- Witness for `pcap_reader_format_fallback`: a stream whose FormatA parse
raises the "not this format" signal is consumed as FormatB; one that both
parsers reject propagates the FormatB rejection; and an I/O-like FormatA
failure propagates unchanged. -/
theorem pcap_reader_format_fallback_witness :
    pcapReaderRun (α := Unit) (.error (.valueError "invalid tcpdump header"))
        (.ok ()) (fun _ => .ok ())
      = ⟨.ok (), some .formatB, false⟩
    ∧ pcapReaderRun (α := Unit) (.error (.valueError "invalid tcpdump header"))
        (.error (.valueError "invalid pcapng header")) (fun _ => .ok ())
      = ⟨.error (.valueError "invalid pcapng header"), none, false⟩
    ∧ pcapReaderRun (α := Unit) (.error (.otherError "oserror"))
        (.ok ()) (fun _ => .ok ())
      = ⟨.error (.otherError "oserror"), none, false⟩ :=
  ⟨pcap_reader_format_fallback.1 "invalid tcpdump header" _,
   pcap_reader_format_fallback.2.1 "invalid tcpdump header" _ _,
   pcap_reader_format_fallback.2.2 _ _ _ (fun m h => PyErr.noConfusion h)⟩

/--
Claim C6.  `capinfos` argument validation: an empty path list is rejected
with the `InvalidArguments` `RuntimeError`, as is any option string that
does not start with the `-` marker — and in both cases the result does not
depend on the external-process parameter at all (the failure happens before
any process is spawned). -/
theorem capinfos_argument_validation :
    (∀ (opts : List String)
        (rt : List String → List String → Except ToolFailure String),
        capinfos (.multiple []) opts rt = .error (.runtimeError "No paths provided"))
    ∧ (∀ (path : PathArg) (opts : List String)
        (rt : List String → List String → Except ToolFailure String),
        path ≠ .multiple [] →
        ¬ (opts.all startsWithDash = true) →
        capinfos path opts rt = .error (.runtimeError "All opts must start with a dash")) := by
  constructor
  · intro opts rt
    rfl
  · intro path opts rt hpath hopts
    cases path with
    | single p =>
      simp [capinfos, hopts]
    | multiple l =>
      cases l with
      | nil => exact absurd rfl hpath
      | cons x xs => simp [capinfos, hopts]

/-- Witness for `capinfos_argument_validation`: the empty path list and an
unmarked option are both rejected whatever the external tool would do. -/
theorem capinfos_argument_validation_witness :
    capinfos (.multiple []) ["-c"] (fun _ _ => .error .notFound)
      = .error (.runtimeError "No paths provided")
    ∧ capinfos (.single "a.pcap") ["badopt"] (fun _ _ => .error .notFound)
      = .error (.runtimeError "All opts must start with a dash") :=
  ⟨capinfos_argument_validation.1 ["-c"] _,
   capinfos_argument_validation.2 (.single "a.pcap") ["badopt"] _
     (fun h => PathArg.noConfusion h) (by decide)⟩

/--
Claim C7.  When the external summarizer executable is absent, `count` falls
back to the in-process streaming count over the Capture Reader's record
sequence — a fold that keeps only the counter — and returns exactly the
number of records; `get_start_end` has no such fallback: when every attempt
to run the tool reports it missing, the call fails with the
`FileNotFoundError` unavailability condition. -/
theorem count_fallback_get_start_end_none :
    (∀ (records : List (ℚ × List Nat)) (path : String)
        (rt : List String → List String → Except ToolFailure String),
        count false records path rt = .ok (records.length : Int))
    ∧ (∀ (pcap : String)
        (rt : List String → List String → Except ToolFailure String),
        (∀ o ps, rt o ps = .error .notFound) →
        get_start_end pcap rt = .error .fileNotFoundError) := by
  constructor
  · intro records path rt
    simp [count, streamRecordCount_eq_length]
  · intro pcap rt hrt
    have hdash : startsWithDash "-aeS" = true := by decide
    simp [get_start_end, capinfos, hrt, hdash]

/-- Witness for `count_fallback_get_start_end_none`: with the tool absent, a
two-record capture is counted as 2 by streaming, and `get_start_end` fails
with the unavailability error. -/
theorem count_fallback_get_start_end_none_witness :
    count false [(1, [0, 1]), (2, [2])] "c.pcap" (fun _ _ => .error .notFound)
      = .ok ((2 : Int))
    ∧ get_start_end "c.pcap" (fun _ _ => .error .notFound)
      = .error .fileNotFoundError :=
  ⟨count_fallback_get_start_end_none.1 [(1, [0, 1]), (2, [2])] "c.pcap" _,
   count_fallback_get_start_end_none.2 "c.pcap" _ (fun _ _ => rfl)⟩

/--
Claim C8.  `get_start_end` parses decimal fields with a locale-tolerant
rule: a comma is treated as a decimal point.  First conjunct: the field
parser gives the same result on a comma-written decimal as on the
dot-written one.  Second conjunct: a summarizer row with start time `10,5`
and end time `20,25` is parsed as start 10.5 and end 20.25. -/
theorem get_start_end_comma_decimal :
    (∀ (a b : List Char),
        pyFloat (replaceCommaDot (String.mk (a ++ ',' :: b)))
          = pyFloat (replaceCommaDot (String.mk (a ++ '.' :: b))))
    ∧ get_start_end "c.pcap"
        (fun _ _ => .ok "Number of packets\tStart time\tEnd time\n1000\t10,5\t20,25\n")
      = .ok (21/2, 81/4) := by
  constructor
  · intro a b
    have h : replaceCommaDot (String.mk (a ++ ',' :: b))
        = replaceCommaDot (String.mk (a ++ '.' :: b)) := by
      simp [replaceCommaDot]
    rw [h]
  · with_unfolding_all decide

/--
Claim C10.  `capinfos` return shape: with exactly one path — given bare or
as a one-element list — a successful call returns a single bare record
(never a one-element list), built by zipping the header fields with the
single data row; with two or more paths it returns a list of records, one
per data row, in row order, whose length equals the number of paths (the
external tool emits one row per path in input order). -/
theorem capinfos_single_bare_multi_list :
    (∀ (p : String) (opts : List String)
        (rt : List String → List String → Except ToolFailure String)
        (out header row : String),
        (∀ o, rt o [p] = .ok out) →
        opts.all startsWithDash = true →
        splitlines out = [header, row] →
        '\t' ∈ out.data →
        capinfos (.single p) opts rt
          = .ok (.single (List.zip (splitTab header) (splitTab row)))
        ∧ capinfos (.multiple [p]) opts rt
          = .ok (.single (List.zip (splitTab header) (splitTab row))))
    ∧ (∀ (ps opts : List String)
        (rt : List String → List String → Except ToolFailure String)
        (out header : String) (rows : List String),
        2 ≤ ps.length →
        (∀ o, rt o ps = .ok out) →
        opts.all startsWithDash = true →
        splitlines out = header :: rows →
        rows.length = ps.length →
        '\t' ∈ out.data →
        capinfos (.multiple ps) opts rt
          = .ok (.multiple (rows.map (fun r => List.zip (splitTab header) (splitTab r))))
        ∧ (rows.map fun r => List.zip (splitTab header) (splitTab r)).length
            = ps.length) := by
  constructor
  · intro p opts rt out header row hrt hopts hsplit htab
    have hne : out ≠ "" := by
      intro h
      rw [h] at hsplit
      exact List.noConfusion hsplit
    constructor <;> simp [capinfos, hrt, hopts, hsplit, htab, hne]
  · intro ps opts rt out header rows hlen hrt hopts hsplit hrows htab
    have hps : ps ≠ [] := by
      intro h
      rw [h] at hlen
      exact absurd hlen (by decide)
    have hne : out ≠ "" := by
      intro h
      rw [h] at hsplit
      exact List.noConfusion hsplit
    have h2 : 1 < rows.length := by omega
    have h1 : 1 ≤ rows.length := by omega
    constructor
    · simp [capinfos, hrt, hopts, hsplit, htab, hne, hps, h2, h1]
    · simp [hrows]

/-- Witness for `capinfos_single_bare_multi_list`: a one-path call (bare and
one-element list) on a two-line tool output returns the bare zipped record,
and a two-path call on a three-line output returns a two-record list. -/
theorem capinfos_single_bare_multi_list_witness :
    (capinfos (.single "x.pcap") ["-c"] (fun _ _ => .ok "K1\tK2\nv1\tv2")
        = .ok (.single (List.zip (splitTab "K1\tK2") (splitTab "v1\tv2")))
      ∧ capinfos (.multiple ["x.pcap"]) ["-c"] (fun _ _ => .ok "K1\tK2\nv1\tv2")
        = .ok (.single (List.zip (splitTab "K1\tK2") (splitTab "v1\tv2"))))
    ∧ (capinfos (.multiple ["a.pcap", "b.pcap"]) ["-c"]
          (fun _ _ => .ok "K1\tK2\na1\ta2\nb1\tb2")
        = .ok (.multiple (["a1\ta2", "b1\tb2"].map
            (fun r => List.zip (splitTab "K1\tK2") (splitTab r))))
      ∧ (["a1\ta2", "b1\tb2"].map
            fun r => List.zip (splitTab "K1\tK2") (splitTab r)).length
          = (["a.pcap", "b.pcap"] : List String).length) :=
  ⟨capinfos_single_bare_multi_list.1 "x.pcap" ["-c"] _ "K1\tK2\nv1\tv2" "K1\tK2" "v1\tv2"
      (fun _ => rfl) (by decide) (by decide) (by decide),
   capinfos_single_bare_multi_list.2 ["a.pcap", "b.pcap"] ["-c"] _
      "K1\tK2\na1\ta2\nb1\tb2" "K1\tK2" ["a1\ta2", "b1\tb2"]
      (by decide) (fun _ => rfl) (by decide) (by decide) (by decide) (by decide)⟩

end Caputils
